import Mathlib

/-!
Shallow embedding of the Bastion SSH bastion (Arylite/Bastion) and proofs
about its authentication, routing, relay and cleanup logic.

Bytes are modelled as `Nat` values below 256, machine words as `Nat`
reduced modulo `2 ^ 32` where the code's arithmetic would overflow.
Python functions that can raise are translated into `Except String`
producers; branches of the source that catch exceptions are translated
by matching on the `Except` value.
-/

namespace Bastion

/-! ## SHA-256 (translation of `hashlib.sha256` as used by `auth.py`)

A byte-level implementation of FIPS 180-4 SHA-256 over `Nat`, so that
`get_key_fingerprint` below is executable.  Words are kept below `2 ^ 32`
by explicit reduction. -/

abbrev Byte := Nat

/-- Reduce a value to a 32-bit word. -/
def w32 (x : Nat) : Nat := x % 4294967296

/-- Rotate a 32-bit word right by `n` (for `0 < n < 32` and `x < 2 ^ 32`). -/
def rotr (n x : Nat) : Nat := x / 2 ^ n + x % 2 ^ n * 2 ^ (32 - n)

/-- SHA-256 `Ch` function. -/
def shaCh (x y z : Nat) : Nat := (x &&& y) ^^^ ((x ^^^ 4294967295) &&& z)

/-- SHA-256 `Maj` function. -/
def shaMaj (x y z : Nat) : Nat := (x &&& y) ^^^ (x &&& z) ^^^ (y &&& z)

/-- SHA-256 big sigma-0. -/
def bigS0 (x : Nat) : Nat := rotr 2 x ^^^ rotr 13 x ^^^ rotr 22 x

/-- SHA-256 big sigma-1. -/
def bigS1 (x : Nat) : Nat := rotr 6 x ^^^ rotr 11 x ^^^ rotr 25 x

/-- SHA-256 small sigma-0. -/
def smallS0 (x : Nat) : Nat := rotr 7 x ^^^ rotr 18 x ^^^ x / 2 ^ 3

/-- SHA-256 small sigma-1. -/
def smallS1 (x : Nat) : Nat := rotr 17 x ^^^ rotr 19 x ^^^ x / 2 ^ 10

/-- The 64 SHA-256 round constants of FIPS 180-4, written in decimal. -/
def shaK : List Nat :=
  [1116352408, 1899447441, 3049323471, 3921009573, 961987163,
   1508970993, 2453635748, 2870763221, 3624381080, 310598401,
   607225278, 1426881987, 1925078388, 2162078206, 2614888103,
   3248222580, 3835390401, 4022224774, 264347078, 604807628,
   770255983, 1249150122, 1555081692, 1996064986, 2554220882,
   2821834349, 2952996808, 3210313671, 3336571891, 3584528711,
   113926993, 338241895, 666307205, 773529912, 1294757372,
   1396182291, 1695183700, 1986661051, 2177026350, 2456956037,
   2730485921, 2820302411, 3259730800, 3345764771, 3516065817,
   3600352804, 4094571909, 275423344, 430227734, 506948616,
   659060556, 883997877, 958139571, 1322822218, 1537002063,
   1747873779, 1955562222, 2024104815, 2227730452, 2361852424,
   2428436474, 2756734187, 3204031479, 3329325298]

/-- The SHA-256 initial hash value of FIPS 180-4, written in decimal. -/
def shaH0 : List Nat :=
  [1779033703, 3144134277, 1013904242, 2773480762,
   1359893119, 2600822924, 528734635, 1541459225]

/-- Big-endian byte decomposition of `n` into `k` bytes. -/
def toBytesBE : Nat → Nat → List Byte
  | 0, _ => []
  | k + 1, n => toBytesBE k (n / 256) ++ [n % 256]

/-- SHA-256 message padding: append `0x80`, zero bytes, and the 64-bit
big-endian bit length, reaching a multiple of 64 bytes. -/
def padMessage (msg : List Byte) : List Byte :=
  msg ++ [128] ++ List.replicate ((119 - msg.length % 64) % 64) 0
      ++ toBytesBE 8 (msg.length * 8)

/-- Group a byte list into big-endian 32-bit words. -/
def bytesToWords : List Byte → List Nat
  | a :: b :: c :: d :: rest => (((a * 256 + b) * 256 + c) * 256 + d) :: bytesToWords rest
  | _ => []

/-- Extend a 16-word block by `n` further schedule words. -/
def shaExtend : Nat → List Nat → List Nat
  | 0, acc => acc
  | n + 1, acc =>
    let t := acc.length
    let w := w32 (smallS1 (acc.getD (t - 2) 0) + acc.getD (t - 7) 0 +
                  smallS0 (acc.getD (t - 15) 0) + acc.getD (t - 16) 0)
    shaExtend n (acc ++ [w])

/-- One SHA-256 compression round on the 8-word state. -/
def shaRound (st : List Nat) (kw : Nat × Nat) : List Nat :=
  match st with
  | [a, b, c, d, e, f, g, h] =>
    let t1 := w32 (h + bigS1 e + shaCh e f g + kw.1 + kw.2)
    let t2 := w32 (bigS0 a + shaMaj a b c)
    [w32 (t1 + t2), a, b, c, w32 (d + t1), e, f, g]
  | other => other

/-- Compress one 16-word block into the running hash state. -/
def shaCompress (h : List Nat) (block : List Nat) : List Nat :=
  let ws := shaExtend 48 block
  let fin := (shaK.zip ws).foldl shaRound h
  (h.zip fin).map (fun p => w32 (p.1 + p.2))

/-- Split a byte list into 64-byte chunks (fuel-indexed structural recursion). -/
def chunk64Aux : Nat → List Byte → List (List Byte)
  | 0, _ => []
  | _, [] => []
  | fuel + 1, x :: xs => ((x :: xs).take 64) :: chunk64Aux fuel ((x :: xs).drop 64)

/-- Split a byte list into 64-byte chunks. -/
def chunk64 (l : List Byte) : List (List Byte) := chunk64Aux l.length l

/-- SHA-256 of a byte string, as a 32-byte digest. -/
def sha256 (msg : List Byte) : List Byte :=
  let blocks := chunk64 (padMessage msg)
  let hFin := blocks.foldl (fun h b => shaCompress h (bytesToWords b)) shaH0
  hFin.foldr (fun w acc => toBytesBE 4 w ++ acc) []

/-! ## Base64 (translation of `base64.b64encode` as used by `auth.py`) -/

/-- The standard base64 alphabet. -/
def b64Alphabet : List Char :=
  "ABCDEFGHIJKLMNOPQRSTUVWXYZabcdefghijklmnopqrstuvwxyz0123456789+/".toList

/-- Character for a 6-bit value. -/
def b64Char (n : Nat) : Char := b64Alphabet.getD n 'A'

/-- Standard base64 encoding with `=` padding, three input bytes per four
output characters (the behaviour of `base64.b64encode`). -/
def b64Padded : List Byte → List Char
  | a :: b :: c :: rest =>
    b64Char (a / 4) :: b64Char (a % 4 * 16 + b / 16) ::
    b64Char (b % 16 * 4 + c / 64) :: b64Char (c % 64) :: b64Padded rest
  | [a, b] => [b64Char (a / 4), b64Char (a % 4 * 16 + b / 16), b64Char (b % 16 * 4), '=']
  | [a] => [b64Char (a / 4), b64Char (a % 4 * 16), '=', '=']
  | [] => []

/-- Modelled from the spec: the unpadded base64 encoding used by the spec's
fingerprint formula "SHA256: + base64_unpadded(sha256(blob))", identical to
standard base64 except that no `=` padding characters are produced. -/
def b64Unpadded : List Byte → List Char
  | a :: b :: c :: rest =>
    b64Char (a / 4) :: b64Char (a % 4 * 16 + b / 16) ::
    b64Char (b % 16 * 4 + c / 64) :: b64Char (c % 64) :: b64Unpadded rest
  | [a, b] => [b64Char (a / 4), b64Char (a % 4 * 16 + b / 16), b64Char (b % 16 * 4)]
  | [a] => [b64Char (a / 4), b64Char (a % 4 * 16)]
  | [] => []

/-- Translation of Python `s.rstrip('=')`: remove every trailing `=`. -/
def rstripEq (s : String) : String :=
  String.mk ((s.toList.reverse.dropWhile (fun c => c = '=')).reverse)

/-! ## Fingerprint (translation of `auth.py`, `SSHKeyAuth.get_key_fingerprint`)

The paramiko key object is modelled by the raw blob its `asbytes()`
returns; for a plain byte blob none of the operations in the `try` block
can raise, so the `except` branch returning `""` is unreachable in this
translation. -/

/-- Translation of `get_key_fingerprint`: `"SHA256:" +
base64.b64encode(hashlib.sha256(key_bytes).digest()).decode().rstrip('=')`. -/
def get_key_fingerprint (blob : List Byte) : String :=
  "SHA256:" ++ rstripEq (String.mk (b64Padded (sha256 blob)))

/-- Modelled from the spec: the fingerprint formula
"SHA256: + base64_unpadded(sha256(blob))". -/
def spec_fingerprint (blob : List Byte) : String :=
  "SHA256:" ++ String.mk (b64Unpadded (sha256 blob))

/-! ## Data model (translation of `models.py`)

The dataclass `__post_init__` validators can raise `ValueError`, so
construction is translated as an `Except String` producer. -/

/-- A row of the `ssh_keys` table (`db.py` schema). The port is an `Int`
since the SQLite column admits any integer. -/
structure Row where
  id : Nat
  fingerprint : String
  username : String
  target_host : String
  target_port : Int
  target_user : String
  enabled : Bool
deriving DecidableEq

/-- Translation of the `SSHKey` dataclass of `models.py`. -/
structure SSHKey where
  id : Option Nat
  fingerprint : String
  username : String
  target_host : String
  target_port : Int
  target_user : String
  enabled : Bool
deriving DecidableEq

/-- Translation of `SSHKey.__post_init__`: the validating constructor. -/
def mkSSHKey (id : Option Nat) (fingerprint username target_host : String)
    (target_port : Int) (target_user : String) (enabled : Bool) : Except String SSHKey :=
  if fingerprint = "" then .error "Fingerprint is required"
  else if target_host = "" then .error "Target host is required"
  else if target_user = "" then .error "Target user is required"
  else if target_port < 1 ∨ target_port > 65535 then .error "Invalid target port"
  else .ok ⟨id, fingerprint, username, target_host, target_port, target_user, enabled⟩

/-- Translation of the `Target` dataclass of `models.py`. -/
structure Target where
  host : String
  port : Int
  user : String
deriving DecidableEq

/-- Translation of `Target.__post_init__`: the validating constructor. -/
def mkTarget (host : String) (port : Int) (user : String) : Except String Target :=
  if host = "" then .error "Target host is required"
  else if user = "" then .error "Target user is required"
  else if port < 1 ∨ port > 65535 then .error "Invalid port"
  else .ok ⟨host, port, user⟩

/-- Translation of the `ConnectionEvent` dataclass of `models.py`
(timestamp omitted: it is filled in by the database default). -/
structure ConnectionEvent where
  fingerprint : String
  source_ip : String
  target_host : String
  target_user : String
  username : String
  status : String
  error_message : Option String
deriving DecidableEq

/-! ## Catalog (translation of `db.py`) -/

/-- The catalog state: either the list of `ssh_keys` rows, or an error
state in which every SQL operation raises (an unavailable backend). -/
inductive Catalog where
  | ok (rows : List Row)
  | unavailable (msg : String)
deriving DecidableEq

/-- Translation of the SQL query of `find_ssh_key`:
`SELECT ... WHERE fingerprint = ? AND enabled = 1` followed by
`fetchone()` (the first matching row). -/
def sqlFindEnabled (rows : List Row) (fp : String) : Option Row :=
  rows.find? (fun r => r.fingerprint == fp && r.enabled)

/-- Translation of `Database.find_ssh_key`: run the query, build an
`SSHKey` from the row, and return `None` if anything raised (the
function's `try`/`except` catches every exception). -/
def find_ssh_key (db : Catalog) (fingerprint : String) : Option SSHKey :=
  match db with
  | .unavailable _ => none
  | .ok rows =>
    match sqlFindEnabled rows fingerprint with
    | none => none
    | some r =>
      match mkSSHKey (some r.id) r.fingerprint r.username r.target_host
          r.target_port r.target_user r.enabled with
      | .error _ => none
      | .ok k => some k

/-! ## Text log lines (translation of the helpers in `logging.py`) -/

/-- One textual log line, as produced by the `log_connection_*` helpers
of `logging.py` and by direct `logger` calls. -/
inductive TextLog where
  | attempt (source_ip fingerprint username : String)
  | denied (source_ip fingerprint username reason : String)
  | success (source_ip fingerprint username target_host : String)
  | info (msg : String)
  | error (msg : String)
deriving DecidableEq

/-! ## Authentication (translation of `auth.py`, `SSHKeyAuth.authenticate_key`)

In the source the fingerprint is computed once and that local variable
keys the catalog lookup; the part of the function after the computation
is factored into `authenticate_with_fingerprint` to make this explicit.
Every callee already catches its own exceptions, so the function's outer
`except` branch is unreachable in this translation and every branch
returns a pair. -/

/-- The body of `authenticate_key` after `fingerprint` has been computed:
the empty-fingerprint guard, the attempt log, the catalog lookup keyed by
`fingerprint`, and the enabled check. -/
def authenticate_with_fingerprint (db : Catalog) (username source_ip fingerprint : String) :
    (Bool × Option SSHKey) × List TextLog :=
  if fingerprint = "" then
    ((false, none), [.denied source_ip "INVALID" username "Could not calculate key fingerprint"])
  else
    match find_ssh_key db fingerprint with
    | none =>
      ((false, none), [.attempt source_ip fingerprint username,
        .denied source_ip fingerprint username "SSH key not found in database"])
    | some k =>
      if !k.enabled then
        ((false, none), [.attempt source_ip fingerprint username,
          .denied source_ip fingerprint username "SSH key is disabled"])
      else
        ((true, some k), [.attempt source_ip fingerprint username,
          .info ("Authentication SUCCESS for " ++ username ++ " from " ++ source_ip)])

/-- Translation of `SSHKeyAuth.authenticate_key`. -/
def authenticate_key (db : Catalog) (username : String) (blob : List Byte)
    (source_ip : String) : (Bool × Option SSHKey) × List TextLog :=
  authenticate_with_fingerprint db username source_ip (get_key_fingerprint blob)

/-! ## IP and CIDR parsing (translation of the `ipaddress` calls in
`router.py`, restricted to IPv4, which is what the configured restricted
networks use)

`ipaddress.ip_address` raises `ValueError` on anything that is not an IP
literal (in particular on every DNS name); `ipaddress.ip_network(...,
strict=False)` masks the host bits of the written address. -/

/-- Split a character list at every occurrence of `sep` (the semantics
of Python `str.split(sep)` for a one-character separator). -/
def splitOnChar (sep : Char) : List Char → List (List Char)
  | [] => [[]]
  | c :: rest =>
    match splitOnChar sep rest with
    | [] => if c = sep then [[], []] else [[c]]
    | h :: t => if c = sep then [] :: h :: t else (c :: h) :: t

/-- Parse one dotted-quad octet: 1-3 decimal digits, no leading zero,
value at most 255 (the acceptance rules of `ipaddress.ip_address`). -/
def parseOctet (cs : List Char) : Option Nat :=
  if cs = [] then none
  else if cs.length > 3 then none
  else if cs.head? = some '0' ∧ cs.length > 1 then none
  else if cs.all Char.isDigit then
    let v := cs.foldl (fun a c => a * 10 + (c.toNat - 48)) 0
    if v ≤ 255 then some v else none
  else none

/-- Parse an IPv4 literal to its 32-bit value; `none` models the
`ValueError` raised by `ipaddress.ip_address` on a non-literal. -/
def parseIPv4 (s : String) : Option Nat :=
  match (splitOnChar '.' s.toList).mapM parseOctet with
  | some [a, b, c, d] => some (((a * 256 + b) * 256 + c) * 256 + d)
  | _ => none

/-- An IPv4 network: masked network address and prefix length. -/
structure Ipv4Network where
  netaddr : Nat
  prefixLen : Nat
deriving DecidableEq

/-- Parse the prefix length of a CIDR: decimal, no leading zero, at
most 32. -/
def parsePrefixNat (cs : List Char) : Option Nat :=
  if cs = [] then none
  else if cs.head? = some '0' ∧ cs.length > 1 then none
  else if cs.all Char.isDigit then
    let v := cs.foldl (fun a c => a * 10 + (c.toNat - 48)) 0
    if v ≤ 32 then some v else none
  else none

/-- Translation of `ipaddress.ip_network(s, strict=False)` for IPv4:
a bare address gets prefix 32, and host bits are masked off. -/
def parseCIDR (s : String) : Option Ipv4Network :=
  match splitOnChar '/' s.toList with
  | [addr] => (parseIPv4 (String.mk addr)).map (fun ip => ⟨ip, 32⟩)
  | [addr, p] =>
    match parseIPv4 (String.mk addr), parsePrefixNat p with
    | some ip, some pl => some ⟨ip - ip % 2 ^ (32 - pl), pl⟩
    | _, _ => none
  | _ => none

/-- Translation of `ip in network`: the high `prefixLen` bits agree. -/
def ipInNetwork (ip : Nat) (net : Ipv4Network) : Bool :=
  ip / 2 ^ (32 - net.prefixLen) == net.netaddr / 2 ^ (32 - net.prefixLen)

/-! ## Router (translation of `router.py`) -/

/-- Translation of the `for host in Config.RESTRICTED_NETWORKS` loop of
`SSHRouter._validate_target`: `ipaddress.ip_address(target.host)` is
evaluated inside the loop body, so a parse failure of either the host or
the CIDR raises, is caught by the method's `except`, and yields `False`;
a membership match also yields `False`; otherwise the loop continues. -/
def checkRestricted (host : String) : List String → Bool
  | [] => true
  | c :: rest =>
    match parseIPv4 host, parseCIDR c with
    | some ip, some net => if ipInNetwork ip net then false else checkRestricted host rest
    | _, _ => false

/-- Translation of `SSHRouter._validate_target`. -/
def validate_target (t : Target) (restricted : List String) : Bool :=
  if t.host = "" ∨ t.user = "" then false
  else if t.port < 1 ∨ t.port > 65535 then false
  else checkRestricted t.host restricted

/-- Translation of the `ConnectionEvent(...)` construction inside
`SSHRouter._log_connection_event`. -/
def routerEvent (key : SSHKey) (username source_ip : String) (target : Option Target)
    (status : String) (error_message : Option String) : ConnectionEvent :=
  { fingerprint := key.fingerprint
    source_ip := source_ip
    target_host := match target with | some t => t.host | none => ""
    target_user := match target with | some t => t.user | none => ""
    username := username
    status := status
    error_message := error_message }

/-- The outcome of `SSHRouter.get_target`: the returned target, the
`ConnectionEvent` records handed to `database.log_connection_event`, and
the textual log lines, in order. -/
structure RouteResult where
  target : Option Target
  events : List ConnectionEvent
  logs : List TextLog
deriving DecidableEq

/-- Translation of `SSHRouter.get_target`.  The `Target(...)`
construction can raise (`models.py` validation); that exception reaches
the method's `except` branch, which records a status-`error` event.  A
validation failure logs a denied line and returns `None` without any
`ConnectionEvent`; the success path records a status-`success` event. -/
def get_target (ssh_key : Option SSHKey) (username source_ip : String)
    (restricted : List String) : RouteResult :=
  match ssh_key with
  | none => ⟨none, [], [.denied source_ip "UNKNOWN" username "SSH key not valid or disabled"]⟩
  | some key =>
    if !key.enabled then
      ⟨none, [], [.denied source_ip key.fingerprint username "SSH key not valid or disabled"]⟩
    else
      match mkTarget key.target_host key.target_port key.target_user with
      | .error e =>
        ⟨none, [routerEvent key username source_ip none "error" (some e)],
          [.error ("Routing error: " ++ e)]⟩
      | .ok target =>
        if !validate_target target restricted then
          ⟨none, [], [.denied source_ip key.fingerprint username "Invalid target configuration"]⟩
        else
          ⟨some target, [routerEvent key username source_ip (some target) "success" none],
            [.success source_ip key.fingerprint username target.host,
             .info ("Routing SUCCESS: " ++ username ++ "@" ++ source_ip)]⟩

/-! ## Relay engine cleanup (translation of `proxy.py`,
`SSHProxy._cleanup_connection`)

A closeable handle (paramiko channel or SSH client) is modelled by its
closed flag plus a flag saying whether its `close()` call raises; each
close in the source sits in its own `try`/`except: pass`, so a raising
close leaves the handle as it was and the next close still runs. -/

/-- A closeable resource handle. -/
structure Handle where
  closed : Bool
  failClose : Bool
deriving DecidableEq

/-- One isolated `try: h.close() except: pass` block. -/
def tryClose (h : Handle) : Handle :=
  if h.failClose then h else { h with closed := true }

/-- The value stored in `active_connections[connection_id]` by
`setup_proxy_session` (the `conn_info` dict). -/
structure ConnInfo where
  client_channel : Handle
  target_ssh : Handle
  target_channel : Handle
  target : Target
  source_ip : String
  fingerprint : String
deriving DecidableEq

/-- The relay engine state: the `active_connections` registry. -/
structure ProxyState where
  active_connections : List (String × ConnInfo)
deriving DecidableEq

/-- Replace the stored `ConnInfo` of `cid` (the handles are mutated in
place in Python, so the registry sees the updated object). -/
def updateConn (st : ProxyState) (cid : String) (ci : ConnInfo) : ProxyState :=
  ⟨st.active_connections.map (fun p => if p.1 == cid then (p.1, ci) else p)⟩

/-- Translation of `del self.active_connections[connection_id]`. -/
def removeConn (st : ProxyState) (cid : String) : ProxyState :=
  ⟨st.active_connections.filter (fun p => !(p.1 == cid))⟩

/-- Translation of the Python expression `conn_info.get('target',
{}).get('host', 'unknown')` on the `log_connection_closed` call:
`conn_info['target']` holds a `Target` dataclass instance, which has no
`get` method, so evaluating the second `.get` raises `AttributeError`. -/
def connInfoTargetHostViaGet (_ci : ConnInfo) : Except String String :=
  .error "AttributeError: 'Target' object has no attribute 'get'"

/-- The externally visible steps of one `_cleanup_connection` call. -/
inductive CleanupAction where
  | closeClient
  | closeTargetChannel
  | closeTargetSsh
  | logClosed (host : String)
  | removed
  | cleanupError (msg : String)
deriving DecidableEq

/-- Translation of `SSHProxy._cleanup_connection`: if the id is
registered, close the client channel, the target channel and the
outbound SSH client, each in its own `try`/`except: pass`; then the
`log_connection_closed` argument raises (see
`connInfoTargetHostViaGet`), the exception skips the `del` and is caught
by the method's outer `except`, which logs it. -/
def cleanup_connection (st : ProxyState) (cid : String) :
    ProxyState × List CleanupAction :=
  match st.active_connections.lookup cid with
  | none => (st, [])
  | some ci =>
    let ci1 := { ci with client_channel := tryClose ci.client_channel }
    let ci2 := { ci1 with target_channel := tryClose ci1.target_channel }
    let ci3 := { ci2 with target_ssh := tryClose ci2.target_ssh }
    let closes := [CleanupAction.closeClient, .closeTargetChannel, .closeTargetSsh]
    match connInfoTargetHostViaGet ci3 with
    | .error e => (updateConn st cid ci3, closes ++ [.cleanupError e])
    | .ok host => (removeConn st cid, closes ++ [.logClosed host, .removed])

/-! ## Relay worker (translation of `proxy.py`, `SSHProxy._relay_data`)

One direction of one session, on an error-free run: the source channel
delivers its queued frames in order (each `recv` returns the next one; a
`select` timeout just repeats the loop, so it is dropped from the
model), and the destination's i-th `send` call accepts at most `caps[i]`
bytes — paramiko's `Channel.send` returns the number of bytes actually
sent, which may be less than the length given, and the source ignores
that return value.  Once `caps` is exhausted the destination accepts
whole frames.  The result is the byte sequence actually delivered to the
destination.  A frame of zero length models `recv` returning `b''`
(EOF): the worker breaks out of the loop. -/

/-- Bytes delivered by one relay direction. -/
def relay_data : List (List Byte) → List Nat → List Byte
  | [], _ => []
  | frame :: rest, caps =>
    if frame.isEmpty then []
    else
      match caps with
      | [] => frame ++ relay_data rest []
      | c :: cs => frame.take c ++ relay_data rest cs

/-! ## Helper lemmas -/

/-- No base64 output character is the padding character. -/
theorem b64Char_ne_pad (n : Nat) : b64Char n ≠ '=' := by
  have hlt : ∀ m, m < 64 → b64Alphabet.getD m 'A' ≠ '=' := by decide
  unfold b64Char
  rcases Nat.lt_or_ge n 64 with h | h
  · exact hlt n h
  · rw [List.getD_eq_default]
    · decide
    · have : b64Alphabet.length = 64 := by decide
      omega

/-- Every character of the unpadded base64 encoding differs from `=`. -/
theorem mem_b64Unpadded_ne_pad : ∀ bs : List Byte, ∀ c ∈ b64Unpadded bs, c ≠ '=' := by
  intro bs
  induction bs using b64Unpadded.induct with
  | case1 a b c rest ih =>
    intro x hx
    simp only [b64Unpadded, List.mem_cons] at hx
    rcases hx with h | h | h | h | h
    · exact h ▸ b64Char_ne_pad _
    · exact h ▸ b64Char_ne_pad _
    · exact h ▸ b64Char_ne_pad _
    · exact h ▸ b64Char_ne_pad _
    · exact ih x h
  | case2 a b =>
    intro x hx
    simp only [b64Unpadded, List.mem_cons, List.not_mem_nil, or_false] at hx
    rcases hx with h | h | h <;> exact h ▸ b64Char_ne_pad _
  | case3 a =>
    intro x hx
    simp only [b64Unpadded, List.mem_cons, List.not_mem_nil, or_false] at hx
    rcases hx with h | h <;> exact h ▸ b64Char_ne_pad _
  | case4 => intro x hx; simp [b64Unpadded] at hx

/-- The padded base64 encoding is the unpadded one followed by some
number of `=` characters. -/
theorem b64Padded_eq_unpadded_pad :
    ∀ bs : List Byte, ∃ k, b64Padded bs = b64Unpadded bs ++ List.replicate k '=' := by
  intro bs
  induction bs using b64Unpadded.induct with
  | case1 a b c rest ih =>
    obtain ⟨k, hk⟩ := ih
    exact ⟨k, by simp [b64Padded, b64Unpadded, hk]⟩
  | case2 a b => exact ⟨1, by simp [b64Padded, b64Unpadded]⟩
  | case3 a => exact ⟨2, by simp [b64Padded, b64Unpadded]⟩
  | case4 => exact ⟨0, by simp [b64Padded, b64Unpadded]⟩

/-- dropWhile on a list all of whose elements fail the `=` test is the
identity. -/
theorem dropWhile_pad_of_ne : ∀ l : List Char, (∀ c ∈ l, c ≠ '=') →
    l.dropWhile (fun c => c = '=') = l := by
  intro l hl
  cases l with
  | nil => rfl
  | cons c t =>
    have : c ≠ '=' := hl c (List.mem_cons_self ..)
    simp [List.dropWhile, this]

/-- dropWhile removes a leading block of `=` characters. -/
theorem dropWhile_pad_replicate : ∀ k (l : List Char),
    (List.replicate k '=' ++ l).dropWhile (fun c => c = '=') =
      l.dropWhile (fun c => c = '=') := by
  intro k
  induction k with
  | zero => intro l; simp
  | succ n ih => intro l; simp [List.replicate_succ, List.dropWhile, ih]

/-- rstrip of a string made of a pad-free part followed by padding. -/
theorem rstripEq_append_pad (l : List Char) (k : Nat) (hl : ∀ c ∈ l, c ≠ '=') :
    rstripEq (String.mk (l ++ List.replicate k '=')) = String.mk l := by
  unfold rstripEq
  have h1 : (String.mk (l ++ List.replicate k '=')).toList = l ++ List.replicate k '=' := rfl
  rw [h1, List.reverse_append, List.reverse_replicate, dropWhile_pad_replicate,
    dropWhile_pad_of_ne]
  · rw [List.reverse_reverse]
  · intro c hc
    exact hl c (List.mem_reverse.mp hc)

/-- A fingerprint computed by the code is never the empty string: it
begins with the literal "SHA256:". -/
theorem get_key_fingerprint_ne_empty (blob : List Byte) : get_key_fingerprint blob ≠ "" := by
  unfold get_key_fingerprint
  intro h
  have hd := congrArg String.data h
  simp [String.data_append] at hd

/-- The code's fingerprint equals the spec's formula. -/
theorem fingerprint_eq_spec (blob : List Byte) :
    get_key_fingerprint blob = spec_fingerprint blob := by
  unfold get_key_fingerprint spec_fingerprint
  obtain ⟨k, hk⟩ := b64Padded_eq_unpadded_pad (sha256 blob)
  rw [hk, rstripEq_append_pad _ _ (mem_b64Unpadded_ne_pad (sha256 blob))]

/-- A successful `mkTarget` returns exactly the given fields. -/
theorem mkTarget_ok {host : String} {port : Int} {user : String} {t : Target}
    (h : mkTarget host port user = .ok t) : t = ⟨host, port, user⟩ := by
  unfold mkTarget at h
  split at h
  · exact absurd h (by simp)
  · split at h
    · exact absurd h (by simp)
    · split at h
      · exact absurd h (by simp)
      · cases h; rfl

/-- A successful `mkSSHKey` keeps the enabled flag it was given. -/
theorem mkSSHKey_ok {id : Option Nat} {fp un th : String} {tp : Int} {tu : String}
    {en : Bool} {k : SSHKey}
    (h : mkSSHKey id fp un th tp tu en = .ok k) : k.enabled = en := by
  unfold mkSSHKey at h
  split at h
  · exact absurd h (by simp)
  · split at h
    · exact absurd h (by simp)
    · split at h
      · exact absurd h (by simp)
      · split at h
        · exact absurd h (by simp)
        · cases h; rfl

/-- Any key returned by `find_ssh_key` is enabled: the SQL filter
`enabled = 1` admits only enabled rows. -/
theorem find_ssh_key_enabled {db : Catalog} {fp : String} {k : SSHKey}
    (h : find_ssh_key db fp = some k) : k.enabled = true := by
  cases db with
  | unavailable msg => simp [find_ssh_key] at h
  | ok rows =>
    cases hq : sqlFindEnabled rows fp with
    | none => simp [find_ssh_key, hq] at h
    | some r =>
      have hq2 : rows.find? (fun a => a.fingerprint == fp && a.enabled) = some r := hq
      have hr := List.find?_some hq2
      have hen : r.enabled = true := by
        simp only [Bool.and_eq_true] at hr
        exact hr.2
      cases hk : mkSSHKey (some r.id) r.fingerprint r.username r.target_host
          r.target_port r.target_user r.enabled with
      | error e => simp [find_ssh_key, hq, hk] at h
      | ok k' =>
        simp only [find_ssh_key, hq, hk, Option.some.injEq] at h
        subst h
        rw [mkSSHKey_ok hk, hen]

/-- If no enabled row carries a fingerprint, `find_ssh_key` misses. -/
theorem find_ssh_key_none {rows : List Row} {fp : String}
    (hall : ∀ r ∈ rows, r.fingerprint = fp → r.enabled = false) :
    find_ssh_key (.ok rows) fp = none := by
  have hq : sqlFindEnabled rows fp = none := by
    unfold sqlFindEnabled
    rw [List.find?_eq_none]
    intro r hr
    intro hcontra
    rcases Bool.and_eq_true_iff.mp hcontra with ⟨h1, h2⟩
    have : r.fingerprint = fp := by simpa using h1
    rw [hall r hr this] at h2
    exact Bool.false_ne_true h2
  simp [find_ssh_key, hq]

/-- When no enabled row matches the presented blob's fingerprint,
authentication is rejected with the not-found reason. -/
theorem auth_no_enabled_match (rows : List Row) (u : String) (blob : List Byte)
    (ip : String)
    (hall : ∀ r ∈ rows, r.fingerprint = get_key_fingerprint blob → r.enabled = false) :
    (authenticate_key (.ok rows) u blob ip).1 = (false, none) ∧
    TextLog.denied ip (get_key_fingerprint blob) u "SSH key not found in database" ∈
      (authenticate_key (.ok rows) u blob ip).2 := by
  unfold authenticate_key authenticate_with_fingerprint
  rw [if_neg (get_key_fingerprint_ne_empty blob), find_ssh_key_none hall]
  exact ⟨rfl, by simp⟩

/-- A failed restricted-network pass forces validation to fail. -/
theorem validate_target_false_of_check {t : Target} {restricted : List String}
    (h : checkRestricted t.host restricted = false) :
    validate_target t restricted = false := by
  unfold validate_target
  split
  · rfl
  · split
    · rfl
    · exact h

/-- If the host is an IP literal contained in a parsed member of the
list, the restricted-network pass fails. -/
theorem checkRestricted_false_of_mem {host : String} {ipv : Nat} {cidr : String}
    {net : Ipv4Network} (hip : parseIPv4 host = some ipv)
    (hcidr : parseCIDR cidr = some net) (hin : ipInNetwork ipv net = true) :
    ∀ l : List String, cidr ∈ l → checkRestricted host l = false := by
  intro l
  induction l with
  | nil => intro h; simp at h
  | cons c rest ih =>
    intro hmem
    unfold checkRestricted
    rw [hip]
    cases hc : parseCIDR c with
    | none => rfl
    | some net' =>
      by_cases hm : ipInNetwork ipv net' = true
      · simp [hm]
      · simp only [hm, if_neg, Bool.false_eq_true, if_false]
        rcases List.mem_cons.mp hmem with heq | hmem'
        · subst heq
          rw [hc] at hcidr
          cases hcidr
          exact absurd hin hm
        · exact ih hmem'

/-! ## Claim theorems -/

/-- C3: for every presented public key, the fingerprint computed and used
to key the catalog lookup during authentication equals "SHA256:" followed
by the base64 encoding, with trailing padding stripped, of the SHA-256
digest of the exact raw key blob the client presented.  The second
conjunct records that the whole authentication run, including its catalog
lookup, is keyed by exactly that spec fingerprint. -/
theorem fingerprint_matches_spec (blob : List Byte) (db : Catalog) (u ip : String) :
    get_key_fingerprint blob = spec_fingerprint blob ∧
    authenticate_key db u blob ip =
      authenticate_with_fingerprint db u ip (spec_fingerprint blob) := by
  refine ⟨fingerprint_eq_spec blob, ?_⟩
  unfold authenticate_key
  rw [fingerprint_eq_spec]

/-- C8: for any two presented usernames and any fixed key blob, catalog
state and source IP, the authenticator's accept/reject decision and
returned binding are identical: the presented username is not an
authorization input. -/
theorem username_not_authorization_input (db : Catalog) (u1 u2 : String)
    (blob : List Byte) (ip : String) :
    (authenticate_key db u1 blob ip).1 = (authenticate_key db u2 blob ip).1 := by
  unfold authenticate_key authenticate_with_fingerprint
  split
  · rfl
  · cases h : find_ssh_key db (get_key_fingerprint blob) with
    | none => rfl
    | some k =>
      dsimp only
      by_cases he : (!k.enabled) = true
      · rw [if_pos he, if_pos he]
      · rw [if_neg he, if_neg he]

/-- C10: authenticate_key is total — every branch of the translation
returns a pair, a failing catalog lookup (the unavailable state) yields
(false, none) — and whenever the first component is true the second is a
binding whose enabled flag is true. -/
theorem authenticate_key_total_sound (db : Catalog) (u : String) (blob : List Byte)
    (ip : String) :
    ((authenticate_key db u blob ip).1.1 = true →
      ∃ k, (authenticate_key db u blob ip).1.2 = some k ∧ k.enabled = true) ∧
    (∀ msg, db = .unavailable msg → (authenticate_key db u blob ip).1 = (false, none)) := by
  constructor
  · intro htrue
    unfold authenticate_key authenticate_with_fingerprint at htrue ⊢
    rw [if_neg (get_key_fingerprint_ne_empty blob)] at htrue ⊢
    cases h : find_ssh_key db (get_key_fingerprint blob) with
    | none => rw [h] at htrue; simp at htrue
    | some k =>
      rw [h] at htrue
      dsimp only at htrue ⊢
      by_cases he : k.enabled = true
      · exact ⟨k, by simp [he], he⟩
      · simp [he] at htrue
  · intro msg hmsg
    subst hmsg
    unfold authenticate_key authenticate_with_fingerprint
    rw [if_neg (get_key_fingerprint_ne_empty blob)]
    have h : find_ssh_key (.unavailable msg) (get_key_fingerprint blob) = none := rfl
    rw [h]

/-- C10 witness: a concrete catalog where authentication accepts (and the
returned binding is enabled), and a concrete unavailable catalog where it
returns (false, none). -/
theorem authenticate_key_total_sound_witness :
    (∃ k, (authenticate_key
        (.ok [⟨1, get_key_fingerprint [0], "alice", "10.0.0.5", 22, "ubuntu", true⟩])
        "alice" [0] "198.51.100.7").1.2 = some k ∧ k.enabled = true) ∧
    (authenticate_key (.unavailable "db down") "alice" [0] "198.51.100.7").1 =
      (false, none) := by
  constructor
  · exact (authenticate_key_total_sound
      (.ok [⟨1, get_key_fingerprint [0], "alice", "10.0.0.5", 22, "ubuntu", true⟩])
      "alice" [0] "198.51.100.7").1 (by decide)
  · exact (authenticate_key_total_sound (.unavailable "db down")
      "alice" [0] "198.51.100.7").2 "db down" rfl

/-- C1: a binding whose target_host is an IP literal lying inside any
configured restricted CIDR fails validation, and get_target returns
none — so the server never hands such a target to the proxy. -/
theorem restricted_ip_never_routed (key : SSHKey) (u ip : String)
    (restricted : List String) (ipv : Nat) (cidr : String) (net : Ipv4Network)
    (hip : parseIPv4 key.target_host = some ipv)
    (hmem : cidr ∈ restricted)
    (hcidr : parseCIDR cidr = some net)
    (hin : ipInNetwork ipv net = true) :
    validate_target ⟨key.target_host, key.target_port, key.target_user⟩ restricted = false ∧
    (get_target (some key) u ip restricted).target = none := by
  have hcheck : checkRestricted key.target_host restricted = false :=
    checkRestricted_false_of_mem hip hcidr hin restricted hmem
  refine ⟨validate_target_false_of_check hcheck, ?_⟩
  unfold get_target
  by_cases hen : key.enabled
  · cases ht : mkTarget key.target_host key.target_port key.target_user with
    | error e => simp [hen, ht]
    | ok t =>
      have hteq := mkTarget_ok ht
      have hv : validate_target t restricted = false := by
        apply validate_target_false_of_check
        rw [hteq]
        exact hcheck
      simp [hen, ht, hv]
  · simp [Bool.not_eq_true] at hen
    simp [hen]

/-- C1 witness: the restricted-target scenario — binding to 10.10.254.42
with restricted network 10.10.254.0/24. -/
theorem restricted_ip_never_routed_witness :
    parseIPv4 "10.10.254.42" = some 168492586 ∧
    "10.10.254.0/24" ∈ ["10.10.254.0/24"] ∧
    parseCIDR "10.10.254.0/24" = some ⟨168492544, 24⟩ ∧
    ipInNetwork 168492586 ⟨168492544, 24⟩ = true ∧
    (get_target (some ⟨some 1, "SHA256:abc", "alice", "10.10.254.42", 22, "ubuntu", true⟩)
      "alice" "198.51.100.7" ["10.10.254.0/24"]).target = none := by
  refine ⟨by decide, by decide, by decide, by decide, ?_⟩
  exact (restricted_ip_never_routed
    ⟨some 1, "SHA256:abc", "alice", "10.10.254.42", 22, "ubuntu", true⟩
    "alice" "198.51.100.7" ["10.10.254.0/24"] 168492586 "10.10.254.0/24"
    ⟨168492544, 24⟩ (by decide) (by decide) (by decide) (by decide)).2

/-- C2 counterexample: an enabled binding to the DNS name "example.com"
with a valid user and port is rejected — get_target returns none — under
the default restricted-networks list, refuting the claim that a DNS-name
target is accepted for any configured list. -/
theorem dns_target_rejected_cex :
    parseIPv4 "example.com" = none ∧
    (get_target (some ⟨some 1, "SHA256:abc", "alice", "example.com", 22, "ubuntu", true⟩)
      "alice" "198.51.100.7" ["10.10.254.0/24"]).target = none := by
  exact ⟨by decide, by decide⟩

/-- C2 amended: an enabled binding whose target_host is not an IP literal
and whose user and port are valid is accepted exactly when the configured
restricted-networks list is empty; with any non-empty list the IP parse
of the host raises inside the restricted-network loop and validation
fails closed, so get_target returns none. -/
theorem dns_target_route_amended (key : SSHKey) (u ip : String)
    (restricted : List String)
    (hdns : parseIPv4 key.target_host = none)
    (hen : key.enabled = true)
    (hhost : key.target_host ≠ "")
    (huser : key.target_user ≠ "")
    (hlo : 1 ≤ key.target_port) (hhi : key.target_port ≤ 65535) :
    (restricted = [] → (get_target (some key) u ip restricted).target =
      some ⟨key.target_host, key.target_port, key.target_user⟩) ∧
    (restricted ≠ [] → (get_target (some key) u ip restricted).target = none) := by
  have ht : mkTarget key.target_host key.target_port key.target_user =
      .ok ⟨key.target_host, key.target_port, key.target_user⟩ := by
    unfold mkTarget
    rw [if_neg hhost, if_neg huser, if_neg (by omega)]
  constructor
  · intro hre
    subst hre
    have hv : validate_target ⟨key.target_host, key.target_port, key.target_user⟩ [] = true := by
      unfold validate_target checkRestricted
      rw [if_neg (by exact not_or.mpr ⟨hhost, huser⟩),
        if_neg (show ¬(key.target_port < 1 ∨ key.target_port > 65535) by omega)]
    unfold get_target
    simp [hen, ht, hv]
  · intro hre
    obtain ⟨c, rest, hcr⟩ : ∃ c rest, restricted = c :: rest := by
      cases restricted with
      | nil => exact absurd rfl hre
      | cons c rest => exact ⟨c, rest, rfl⟩
    subst hcr
    have hcheck : checkRestricted key.target_host (c :: rest) = false := by
      unfold checkRestricted
      rw [hdns]
    have hv : validate_target ⟨key.target_host, key.target_port, key.target_user⟩
        (c :: rest) = false := validate_target_false_of_check hcheck
    unfold get_target
    simp [hen, ht, hv]

/-- C2 witness for the amended claim: the binding to "example.com" is
routed when the restricted list is empty and rejected under the default
list. -/
theorem dns_target_route_amended_witness :
    (get_target (some ⟨some 1, "SHA256:abc", "alice", "example.com", 22, "ubuntu", true⟩)
      "alice" "198.51.100.7" []).target = some ⟨"example.com", 22, "ubuntu"⟩ ∧
    (get_target (some ⟨some 1, "SHA256:abc", "alice", "example.com", 22, "ubuntu", true⟩)
      "alice" "198.51.100.7" ["10.10.254.0/24"]).target = none := by
  constructor
  · exact (dns_target_route_amended
      ⟨some 1, "SHA256:abc", "alice", "example.com", 22, "ubuntu", true⟩
      "alice" "198.51.100.7" [] (by decide) rfl (by decide) (by decide)
      (by decide) (by decide)).1 rfl
  · exact (dns_target_route_amended
      ⟨some 1, "SHA256:abc", "alice", "example.com", 22, "ubuntu", true⟩
      "alice" "198.51.100.7" ["10.10.254.0/24"] (by decide) rfl (by decide) (by decide)
      (by decide) (by decide)).2 (by decide)

/-- C6 counterexample: a routing rejection (restricted target, the spec's
scenario 4) logs a denied line and returns none, but creates no
ConnectionEvent at all — in particular none with status "denied" —
refuting the claim that rejections create denied audit records. -/
theorem routing_denied_no_event_cex :
    (get_target (some ⟨some 1, "SHA256:abc", "alice", "10.10.254.42", 22, "ubuntu", true⟩)
      "alice" "198.51.100.7" ["10.10.254.0/24"]).target = none ∧
    (get_target (some ⟨some 1, "SHA256:abc", "alice", "10.10.254.42", 22, "ubuntu", true⟩)
      "alice" "198.51.100.7" ["10.10.254.0/24"]).logs =
      [.denied "198.51.100.7" "SHA256:abc" "alice" "Invalid target configuration"] ∧
    (get_target (some ⟨some 1, "SHA256:abc", "alice", "10.10.254.42", 22, "ubuntu", true⟩)
      "alice" "198.51.100.7" ["10.10.254.0/24"]).events = [] := by
  exact ⟨by decide, by decide, by decide⟩

/-- C6 amended: every ConnectionEvent the router creates has status
"success" or "error"; a routing rejection writes a denied line with a
reason to the text log only, creating no ConnectionEvent and returning
none. -/
theorem routing_event_statuses (k? : Option SSHKey) (u ip : String)
    (restricted : List String) :
    (∀ e ∈ (get_target k? u ip restricted).events,
      e.status = "success" ∨ e.status = "error") ∧
    (∀ s f u' reason, TextLog.denied s f u' reason ∈ (get_target k? u ip restricted).logs →
      (get_target k? u ip restricted).events = [] ∧
      (get_target k? u ip restricted).target = none) := by
  cases k? with
  | none =>
    refine ⟨?_, ?_⟩
    · intro e he; simp [get_target] at he
    · intro s f u' reason _; exact ⟨rfl, rfl⟩
  | some key =>
    by_cases hen : key.enabled = true
    · cases ht : mkTarget key.target_host key.target_port key.target_user with
      | error e =>
        refine ⟨?_, ?_⟩
        · intro ev hev
          simp [get_target, hen, ht] at hev
          subst hev
          right
          rfl
        · intro s f u' reason hmem
          simp [get_target, hen, ht] at hmem
      | ok t =>
        by_cases hv : validate_target t restricted = true
        · refine ⟨?_, ?_⟩
          · intro ev hev
            simp [get_target, hen, ht, hv] at hev
            subst hev
            left
            rfl
          · intro s f u' reason hmem
            simp [get_target, hen, ht, hv] at hmem
        · have hv' : validate_target t restricted = false := by
            cases hb : validate_target t restricted
            · rfl
            · exact absurd hb hv
          refine ⟨?_, ?_⟩
          · intro ev hev
            simp [get_target, hen, ht, hv'] at hev
          · intro s f u' reason _
            simp [get_target, hen, ht, hv']
    · have hen' : key.enabled = false := by
        cases hb : key.enabled
        · rfl
        · exact absurd hb hen
      refine ⟨?_, ?_⟩
      · intro e he; simp [get_target, hen'] at he
      · intro s f u' reason _
        simp [get_target, hen']

/-- C6 witness for the amended claim: at the restricted-target rejection
the event list is empty and the routing returns none. -/
theorem routing_event_statuses_witness :
    (get_target (some ⟨some 1, "SHA256:abc", "alice", "10.10.254.42", 22, "ubuntu", true⟩)
      "alice" "198.51.100.7" ["10.10.254.0/24"]).events = [] ∧
    (get_target (some ⟨some 1, "SHA256:abc", "alice", "10.10.254.42", 22, "ubuntu", true⟩)
      "alice" "198.51.100.7" ["10.10.254.0/24"]).target = none := by
  exact (routing_event_statuses
    (some ⟨some 1, "SHA256:abc", "alice", "10.10.254.42", 22, "ubuntu", true⟩)
    "alice" "198.51.100.7" ["10.10.254.0/24"]).2
    "198.51.100.7" "SHA256:abc" "alice" "Invalid target configuration" (by decide)

/-- C7 counterexample: with a catalog row matching the presented key's
fingerprint but disabled, authentication is rejected with the denied
reason "SSH key not found in database" — the SQL filter `enabled = 1`
hides the row, so the reason "SSH key is disabled" is never produced. -/
theorem disabled_key_reason_cex :
    (authenticate_key
      (.ok [⟨1, get_key_fingerprint [0], "alice", "10.0.0.5", 22, "ubuntu", false⟩])
      "alice" [0] "198.51.100.7").1 = (false, none) ∧
    (authenticate_key
      (.ok [⟨1, get_key_fingerprint [0], "alice", "10.0.0.5", 22, "ubuntu", false⟩])
      "alice" [0] "198.51.100.7").2 =
      [.attempt "198.51.100.7" (get_key_fingerprint [0]) "alice",
       .denied "198.51.100.7" (get_key_fingerprint [0]) "alice"
         "SSH key not found in database"] := by
  exact ⟨by decide, by decide⟩

/-- C7 amended: for a catalog whose rows matching the presented
fingerprint exist but are all disabled, authentication returns rejected
and the denied reason is "SSH key not found in database" (the same as for
an unknown fingerprint); the reason "SSH key is disabled" is unreachable
because find_ssh_key filters on enabled. -/
theorem disabled_row_denied_as_not_found (rows : List Row) (u ip : String)
    (blob : List Byte) (r0 : Row)
    (_hr0 : r0 ∈ rows)
    (_hfp : r0.fingerprint = get_key_fingerprint blob)
    (_hdis : r0.enabled = false)
    (hall : ∀ r ∈ rows, r.fingerprint = get_key_fingerprint blob → r.enabled = false) :
    (authenticate_key (.ok rows) u blob ip).1 = (false, none) ∧
    TextLog.denied ip (get_key_fingerprint blob) u "SSH key not found in database" ∈
      (authenticate_key (.ok rows) u blob ip).2 ∧
    ∀ s f u', TextLog.denied s f u' "SSH key is disabled" ∉
      (authenticate_key (.ok rows) u blob ip).2 := by
  obtain ⟨h1, h2⟩ := auth_no_enabled_match rows u blob ip hall
  refine ⟨h1, h2, ?_⟩
  intro s f u'
  unfold authenticate_key authenticate_with_fingerprint
  rw [if_neg (get_key_fingerprint_ne_empty blob), find_ssh_key_none hall]
  simp

/-- C7 witness for the amended claim: the single-row disabled catalog. -/
theorem disabled_row_denied_as_not_found_witness :
    (authenticate_key
      (.ok [⟨1, get_key_fingerprint [1], "alice", "10.0.0.5", 22, "ubuntu", false⟩])
      "alice" [1] "198.51.100.7").1 = (false, none) ∧
    TextLog.denied "198.51.100.7" (get_key_fingerprint [1]) "alice"
      "SSH key not found in database" ∈
      (authenticate_key
        (.ok [⟨1, get_key_fingerprint [1], "alice", "10.0.0.5", 22, "ubuntu", false⟩])
        "alice" [1] "198.51.100.7").2 := by
  obtain ⟨h1, h2, _⟩ := disabled_row_denied_as_not_found
    [⟨1, get_key_fingerprint [1], "alice", "10.0.0.5", 22, "ubuntu", false⟩]
    "alice" "198.51.100.7" [1]
    ⟨1, get_key_fingerprint [1], "alice", "10.0.0.5", 22, "ubuntu", false⟩
    (by decide) rfl rfl (by decide)
  exact ⟨h1, h2⟩

/-- C9 counterexample: the fingerprint of the empty blob is not the empty
string — it is the well-known SHA-256 fingerprint of the empty input. -/
theorem empty_blob_fingerprint_cex :
    get_key_fingerprint [] ≠ "" ∧
    get_key_fingerprint [] = "SHA256:47DEQpj8HBSa+/TImW+5JCeuQeRkm5NMpJWZG3hSuFU" := by
  exact ⟨by decide, by decide⟩

/-- C9 amended: for an empty presented key blob the computed fingerprint
is the non-empty string "SHA256:47DEQpj8HBSa+/TImW+5JCeuQeRkm5NMpJWZG3hSuFU",
and authentication proceeds by the normal catalog lookup of that
fingerprint, rejected whenever no enabled row carries it. -/
theorem empty_blob_auth_amended (rows : List Row) (u ip : String)
    (hall : ∀ r ∈ rows, r.fingerprint = get_key_fingerprint [] → r.enabled = false) :
    get_key_fingerprint [] = "SHA256:47DEQpj8HBSa+/TImW+5JCeuQeRkm5NMpJWZG3hSuFU" ∧
    (authenticate_key (.ok rows) u [] ip).1 = (false, none) := by
  exact ⟨by decide, (auth_no_enabled_match rows u [] ip hall).1⟩

/-- C9 witness for the amended claim: the empty catalog. -/
theorem empty_blob_auth_amended_witness :
    (authenticate_key (.ok []) "alice" [] "198.51.100.7").1 = (false, none) :=
  (empty_blob_auth_amended [] "alice" "198.51.100.7" (by simp)).2

/-- C4: evaluating _cleanup_connection on a registered session shows the
three handles are closed in order — client channel, target channel,
outbound SSH client, each isolated, as the second conjunct shows for a
client channel whose close raises — but the AttributeError raised while
building the log_connection_closed arguments skips the `del`, so the
session's registry entry is still present afterwards, contradicting the
claim that it is absent. -/
theorem cleanup_registry_leak :
    cleanup_connection
      ⟨[("198.51.100.7:SHA256:a", ⟨⟨false, false⟩, ⟨false, false⟩, ⟨false, false⟩,
        ⟨"10.0.0.5", 22, "ubuntu"⟩, "198.51.100.7", "SHA256:abc"⟩)]⟩
      "198.51.100.7:SHA256:a" =
      (⟨[("198.51.100.7:SHA256:a", ⟨⟨true, false⟩, ⟨true, false⟩, ⟨true, false⟩,
        ⟨"10.0.0.5", 22, "ubuntu"⟩, "198.51.100.7", "SHA256:abc"⟩)]⟩,
       [.closeClient, .closeTargetChannel, .closeTargetSsh,
        .cleanupError "AttributeError: 'Target' object has no attribute 'get'"]) ∧
    cleanup_connection
      ⟨[("198.51.100.7:SHA256:a", ⟨⟨false, true⟩, ⟨false, false⟩, ⟨false, false⟩,
        ⟨"10.0.0.5", 22, "ubuntu"⟩, "198.51.100.7", "SHA256:abc"⟩)]⟩
      "198.51.100.7:SHA256:a" =
      (⟨[("198.51.100.7:SHA256:a", ⟨⟨false, true⟩, ⟨true, false⟩, ⟨true, false⟩,
        ⟨"10.0.0.5", 22, "ubuntu"⟩, "198.51.100.7", "SHA256:abc"⟩)]⟩,
       [.closeClient, .closeTargetChannel, .closeTargetSsh,
        .cleanupError "AttributeError: 'Target' object has no attribute 'get'"]) := by
  exact ⟨by decide, by decide⟩

/-- C5: a 2-byte frame sent to a destination whose send call accepts only
one byte is silently truncated — the unsent byte is dropped and the relay
continues without error, contradicting the retry-until-delivered claim;
when every send accepts the whole frame, the bytes are delivered complete
and in source order. -/
theorem relay_partial_send_drop :
    relay_data [[97, 98]] [1] = [97] ∧
    relay_data [[97, 98]] [] = [97, 98] ∧
    relay_data [[97], [98], []] [] = [97, 98] := by
  exact ⟨by decide, by decide, by decide⟩

end Bastion
